import Mathlib

/-!
Verification of the road-sign inference service.

The Python sources under `src/` are shallowly embedded below.  Python
strings are modelled as lists of natural-number codepoints (`List Nat`),
images by their shapes, and every fallible operation by `Except`.
Floating-point quantities (times, ratios, confidences) are modelled by `ℚ`.
-/

namespace RoadSign

/-- Codepoints of a Lean string literal; the model of a Python `str` value. -/
def codes (s : String) : List Nat := s.data.map Char.toNat

/-- Embedding of `RoadSignInferencePipeline._validate_detection`, with box coordinates
restricted to integers (the claim quantifies over integer boxes) and the
configured thresholds passed explicitly.  `image_shape[:2]` is `(h, w)`, the
aspect ratio is `width/height` when the height is positive and `+inf`
otherwise, and an infinite ratio exceeds any (finite, rational) threshold. -/
def validate_detection (x1 y1 x2 y2 : Int) (img_h img_w : Nat)
    (min_area : Int) (max_aspect_ratio : ℚ) : Bool :=
  if x1 < 0 ∨ y1 < 0 ∨ x2 > (img_w : Int) ∨ y2 > (img_h : Int) ∨ x1 ≥ x2 ∨ y1 ≥ y2 then
    false
  else if (x2 - x1) * (y2 - y1) < min_area then
    false
  else if 0 < y2 - y1 then
    if (((x2 - x1 : Int) : ℚ) / ((y2 - y1 : Int) : ℚ)) > max_aspect_ratio then false
    else true
  else
    false

/-- Some box coordinate lies outside `[0,width] × [0,height]`.  Written from
the claim's words. -/
def coord_outside (x1 y1 x2 y2 : Int) (img_h img_w : Nat) : Prop :=
  x1 < 0 ∨ x1 > (img_w : Int) ∨ x2 < 0 ∨ x2 > (img_w : Int) ∨
  y1 < 0 ∨ y1 > (img_h : Int) ∨ y2 < 0 ∨ y2 > (img_h : Int)

/-- The claim's rejection condition: coordinate out of bounds, degenerate box,
area below the minimum, or aspect ratio above the maximum with a zero height
treated as an infinite ratio (always rejected). -/
def claim_reject (x1 y1 x2 y2 : Int) (img_h img_w : Nat)
    (min_area : Int) (max_aspect_ratio : ℚ) : Prop :=
  coord_outside x1 y1 x2 y2 img_h img_w ∨ x1 ≥ x2 ∨ y1 ≥ y2 ∨
  (x2 - x1) * (y2 - y1) < min_area ∨
  (if y2 - y1 = 0 then True
   else (((x2 - x1 : Int) : ℚ) / ((y2 - y1 : Int) : ℚ)) > max_aspect_ratio)

/-- Python `int(·)` on a rational: truncation toward zero. -/
def pyInt (q : ℚ) : Int := if 0 ≤ q then ⌊q⌋ else ⌈q⌉

/-- A bounding box `[x1, y1, x2, y2]` in full-image coordinates. -/
structure Box where
  x1 : Int
  y1 : Int
  x2 : Int
  y2 : Int
deriving DecidableEq

/-- Embedding of `RoadSignInferencePipeline.extract_roi` on the box coordinates: when the
padding ratio is positive the box is expanded by `int(width*ratio)`
horizontally and `int(height*ratio)` vertically and clamped to
`[0, image.shape[1]] × [0, image.shape[0]]`; otherwise the raw box is used.
The returned box is the one the ROI `image[y1:y2, x1:x2]` is sliced from. -/
def extract_roi (img_h img_w : Nat) (b : Box) (padding_ratio : ℚ) : Box :=
  if 0 < padding_ratio then
    let width := b.x2 - b.x1
    let height := b.y2 - b.y1
    let pad_w := pyInt ((width : ℚ) * padding_ratio)
    let pad_h := pyInt ((height : ℚ) * padding_ratio)
    ⟨max 0 (b.x1 - pad_w), max 0 (b.y1 - pad_h),
     min (img_w : Int) (b.x2 + pad_w), min (img_h : Int) (b.y2 + pad_h)⟩
  else b

/-- Area of the ROI sliced from a box. -/
def boxArea (b : Box) : Int := (b.x2 - b.x1) * (b.y2 - b.y1)

/-- The padded-and-clamped box formula, with floor in place of `int` (the two
agree for the nonnegative products that arise from a valid box). -/
def clamp_box (img_h img_w : Nat) (b : Box) (r : ℚ) : Box :=
  ⟨max 0 (b.x1 - ⌊((b.x2 - b.x1 : Int) : ℚ) * r⌋),
   max 0 (b.y1 - ⌊((b.y2 - b.y1 : Int) : ℚ) * r⌋),
   min (img_w : Int) (b.x2 + ⌊((b.x2 - b.x1 : Int) : ℚ) * r⌋),
   min (img_h : Int) (b.y2 + ⌊((b.y2 - b.y1 : Int) : ℚ) * r⌋)⟩

/-- Record `{text, confidence, raw_text, word_count}` returned by `recognize_text`. -/
structure RecogResult where
  text : List Nat
  confidence : ℚ
  raw_text : List Nat
  word_count : Nat
deriving DecidableEq

/-- Shape `(h, w, c)` of a decoded image buffer; the only attribute of the
image that `predict_image` itself reads. -/
structure Img where
  h : Nat
  w : Nat
  c : Nat
deriving DecidableEq

/-- One detection dict produced by `detect_road_signs`. -/
structure Detection where
  bbox : Box
  confidence : ℚ
  class_id : Int
  class_name : List Nat
deriving DecidableEq

/-- One entry of the `results` list: a detection merged with its OCR result
and the derived `has_text` flag. -/
structure PredRecord where
  detection : Detection
  ocr : RecogResult
  has_text : Bool
deriving DecidableEq

/-- The dict returned by `predict_image`: the success shape
`{image_shape, detections_count, results, processing_time, pipeline_version}`
or the error shape `{error, detections_count, results, processing_time}`. -/
inductive FrameResult where
  | success (image_shape : Nat × Nat × Nat) (detections_count : Nat)
      (results : List PredRecord) (processing_time : ℚ) (pipeline_version : List Nat)
  | failure (error : List Nat) (detections_count : Nat)
      (results : List PredRecord) (processing_time : ℚ)
deriving DecidableEq

def pipeline_version_string : List Nat := codes "1.0.0"

/-- The collaborators `predict_image` invokes, each modelled by its outcome on
the given input: `preprocess_image` may raise `ValueError` on an undecodable
or empty image, `detect_road_signs` may raise (notably when no model is
loaded), and the per-candidate extract/enhance/recognize chain may raise from
the image operations (`recognize_text` itself is total, see C9). -/
structure PipelineEnv where
  preprocess_image : Except (List Nat) Img
  detect_road_signs : Img → Except (List Nat) (List Detection)
  candidate_ocr : Img → Detection → Except (List Nat) RecogResult

/-- The body of the `try` block of `predict_image`. -/
def predict_image_core (env : PipelineEnv) :
    Except (List Nat) ((Nat × Nat × Nat) × Nat × List PredRecord) := do
  let img ← env.preprocess_image
  let dets ← env.detect_road_signs img
  let results ← dets.mapM (fun d => do
    let ocr ← env.candidate_ocr img d
    pure (⟨d, ocr, !ocr.text.isEmpty⟩ : PredRecord))
  pure ((img.h, img.w, img.c), dets.length, results)

/-- Embedding of `RoadSignInferencePipeline.predict_image`: the whole per-image flow runs
inside `try`, and any escaping exception is converted to the error dict
`{error, detections_count: 0, results: [], processing_time}`. -/
def predict_image (env : PipelineEnv) (elapsed : ℚ) : FrameResult :=
  match predict_image_core env with
  | .ok (shape, n, results) => .success shape n results elapsed pipeline_version_string
  | .error e => .failure e 0 [] elapsed

/-- The process-wide `app_stats` dict of `api/main.py` (its `start_time` entry
is only read to compute `uptime`, which is passed separately below). -/
structure AppStats where
  total_predictions : Nat
  total_detections : Nat
  total_processing_time : ℚ
deriving DecidableEq

/-- The initial `app_stats` value. -/
def init_stats : AppStats := ⟨0, 0, 0⟩

/-- Embedding of `update_stats` in `api/main.py`. -/
def update_stats (s : AppStats) (detections_count : Nat) (processing_time : ℚ) : AppStats :=
  ⟨s.total_predictions + 1, s.total_detections + detections_count,
   s.total_processing_time + processing_time⟩

/-- The `/metrics` response. -/
structure MetricsResponse where
  total_predictions : Nat
  total_detections : Nat
  average_processing_time : ℚ
  pipeline_status : String
deriving DecidableEq

/-- Embedding of `get_metrics`: the average is total time over count when the count is
positive, else `0.0`; `pipeline_status` reports whether the global pipeline
object is loaded. -/
def get_metrics (loaded : Bool) (s : AppStats) : MetricsResponse :=
  ⟨s.total_predictions, s.total_detections,
   if 0 < s.total_predictions then s.total_processing_time / (s.total_predictions : ℚ) else 0,
   if loaded then "loaded" else "not_loaded"⟩

/-- The `/health` response. -/
structure HealthResponse where
  status : String
  pipeline_loaded : Bool
  uptime : ℚ
  total_predictions : Nat
  version : String
deriving DecidableEq

/-- Embedding of `health_check`: status is `"healthy"` exactly when the pipeline is
loaded. -/
def health_check (loaded : Bool) (s : AppStats) (uptime : ℚ) : HealthResponse :=
  ⟨if loaded then "healthy" else "degraded", loaded, uptime, s.total_predictions, "1.0.0"⟩

/-- A sequence of successful predictions `(d_i, t_i)` folded through
`update_stats` from the initial statistics. -/
def run_predictions (l : List (Nat × ℚ)) : AppStats :=
  l.foldl (fun s dt => update_stats s dt.1 dt.2) init_stats

/-- An `HTTPException`: status code and detail message. -/
structure HttpErr where
  status_code : Nat
  detail : List Nat
deriving DecidableEq

/-- The `/predict` success response body (the fresh `request_id` uuid is not
modelled). -/
structure PredictionResponse where
  success : Bool
  image_shape : Nat × Nat × Nat
  detections_count : Nat
  results : List PredRecord
  processing_time : ℚ
  pipeline_version : List Nat
deriving DecidableEq

/-- The `/predict` endpoint of `api/main.py`: a 503 when no pipeline is
loaded; then `process_uploaded_file`, whose `HTTPException(400)` on a bad
content type or undecodable payload is re-raised unchanged; then the pipeline
result dict: a result containing `error` raises `HTTPException(500)` before
`update_stats` ever runs, while a success result updates the statistics and
returns the response. -/
def endpoint_predict (loaded : Bool) (decoded : Except HttpErr Unit)
    (result : FrameResult) (s : AppStats) :
    Except HttpErr PredictionResponse × AppStats :=
  if loaded = false then
    (.error ⟨503, codes "Pipeline ML non initialise - service indisponible"⟩, s)
  else
    match decoded with
    | .error e => (.error e, s)
    | .ok _ =>
      match result with
      | .failure e _ _ _ => (.error ⟨500, codes "Erreur de prediction: " ++ e⟩, s)
      | .success shape n results t ver =>
        (.ok ⟨true, shape, n, results, t, ver⟩, update_stats s n t)

/-- One element of the `/predict/batch` results list: a success response, a
`success=False` response for a pipeline-reported error, or the error dict
produced by the per-item exception handler. -/
inductive BatchEntry where
  | ok (image_shape : Nat × Nat × Nat) (n : Nat) (results : List PredRecord)
      (t : ℚ) (ver : List Nat)
  | pipe_error
  | exc_error (msg : List Nat)
deriving DecidableEq

/-- One iteration of the batch loop, inside its `try`: a decode failure (or
any other per-item exception) appends the error dict; a pipeline error result
appends the `success=False` response without touching statistics; a success
result updates the statistics and appends the success response. -/
def process_batch_item (item : Except (List Nat) FrameResult) (s : AppStats) :
    BatchEntry × AppStats :=
  match item with
  | .error m => (.exc_error m, s)
  | .ok (.failure _ _ _ _) => (.pipe_error, s)
  | .ok (.success shape n results t ver) => (.ok shape n results t ver, update_stats s n t)

/-- The entry a batch item contributes, independent of the statistics. -/
def batch_entry : Except (List Nat) FrameResult → BatchEntry
  | .error m => .exc_error m
  | .ok (.failure _ _ _ _) => .pipe_error
  | .ok (.success shape n results t ver) => .ok shape n results t ver

/-- The sequential batch loop. -/
def batch_go : List (Except (List Nat) FrameResult) → AppStats →
    List BatchEntry × AppStats
  | [], s => ([], s)
  | it :: its, s =>
    let r := process_batch_item it s
    let rest := batch_go its r.2
    (r.1 :: rest.1, rest.2)

/-- The `/predict/batch` endpoint: 503 without a pipeline, a single 400
rejection when more than 10 files are posted (before any per-image work),
otherwise the sequential loop over the items. -/
def predict_batch (loaded : Bool) (items : List (Except (List Nat) FrameResult))
    (s : AppStats) : Except HttpErr (List BatchEntry × AppStats) :=
  if loaded = false then
    .error ⟨503, codes "Pipeline ML non initialise - service indisponible"⟩
  else if 10 < items.length then
    .error ⟨400, codes "Maximum 10 images par batch"⟩
  else
    .ok (batch_go items s)

/-- State of the service after startup: whether the module-level `pipeline`
global of `api/main.py` holds an object, and whether that object's
`yolo_model` attribute holds a loaded detection model. -/
structure ServiceState where
  pipeline_exists : Bool
  yolo_model_loaded : Bool
deriving DecidableEq

/-- Embedding of the startup flow `initialize_pipeline` over the outcomes of
its two fallible steps.  `RoadSignInferencePipeline.__init__` raises only when
the config file fails to load (`_load_config` re-raises, lines 59-61) and
discards the boolean returned by `load_models` (line 45); `load_models`
catches any YOLO-loading failure, logs it and returns `False`, leaving
`yolo_model = None` on the live object (lines 93-95).  `initialize_pipeline`
in `api/main.py` (lines 109-119) assigns the global `pipeline` exactly when
the constructor does not raise. -/
def initialize_pipeline (config_ok : Bool) (yolo_load_ok : Bool) : ServiceState :=
  if config_ok then ⟨true, yolo_load_ok⟩ else ⟨false, false⟩

/-- C2: the geometry validator is total and returns `false` exactly under the
claim's rejection condition; in particular the box `(50,50,350,100)` in a
`200×300` image with `max_aspect_ratio = 5.0` is rejected (for any configured
minimum area). -/
theorem validate_detection_characterization :
    (∀ (x1 y1 x2 y2 : Int) (img_h img_w : Nat) (min_area : Int) (max_aspect_ratio : ℚ),
      validate_detection x1 y1 x2 y2 img_h img_w min_area max_aspect_ratio = false ↔
        claim_reject x1 y1 x2 y2 img_h img_w min_area max_aspect_ratio) ∧
    (∀ min_area : Int, validate_detection 50 50 350 100 200 300 min_area 5 = false) := by
  constructor
  · intro x1 y1 x2 y2 img_h img_w ma mr
    unfold validate_detection claim_reject coord_outside
    by_cases hz : y2 - y1 = 0
    · rw [if_pos hz]
      have hy : y1 ≥ y2 := by omega
      have hg : x1 < 0 ∨ y1 < 0 ∨ x2 > (img_w : Int) ∨ y2 > (img_h : Int) ∨
          x1 ≥ x2 ∨ y1 ≥ y2 := by tauto
      rw [if_pos hg]
      simp
    · rw [if_neg hz]
      constructor
      · intro hcode
        by_cases h1 : x1 < 0 ∨ y1 < 0 ∨ x2 > (img_w : Int) ∨ y2 > (img_h : Int) ∨
            x1 ≥ x2 ∨ y1 ≥ y2
        · rcases h1 with h | h | h | h | h | h <;> tauto
        · rw [if_neg h1] at hcode
          by_cases h2 : (x2 - x1) * (y2 - y1) < ma
          · tauto
          · rw [if_neg h2] at hcode
            push_neg at h1
            have hy : 0 < y2 - y1 := by omega
            rw [if_pos hy] at hcode
            by_cases hR : (((x2 - x1 : Int) : ℚ) / ((y2 - y1 : Int) : ℚ)) > mr
            · tauto
            · rw [if_neg hR] at hcode
              simp at hcode
      · intro hclaim
        by_cases h1 : x1 < 0 ∨ y1 < 0 ∨ x2 > (img_w : Int) ∨ y2 > (img_h : Int) ∨
            x1 ≥ x2 ∨ y1 ≥ y2
        · rw [if_pos h1]
        · rw [if_neg h1]
          rcases hclaim with hc | h | h | h | hR
          · exfalso
            omega
          · exfalso
            omega
          · exfalso
            omega
          · rw [if_pos h]
          · by_cases h2 : (x2 - x1) * (y2 - y1) < ma
            · rw [if_pos h2]
            · rw [if_neg h2]
              have hy : 0 < y2 - y1 := by omega
              rw [if_pos hy, if_pos hR]
  · intro ma
    unfold validate_detection
    rw [if_pos (by omega)]

theorem extract_roi_eq_clamp (img_h img_w : Nat) (b : Box) (r : ℚ)
    (hr : 0 ≤ r) (hx1 : 0 ≤ b.x1) (hx : b.x1 < b.x2) (hx2 : b.x2 ≤ (img_w : Int))
    (hy1 : 0 ≤ b.y1) (hy : b.y1 < b.y2) (hy2 : b.y2 ≤ (img_h : Int)) :
    extract_roi img_h img_w b r = clamp_box img_h img_w b r := by
  unfold extract_roi clamp_box
  by_cases hr0 : 0 < r
  · rw [if_pos hr0]
    have hw : (0 : ℚ) ≤ ((b.x2 - b.x1 : Int) : ℚ) * r := by
      apply mul_nonneg _ hr
      push_cast
      have : (0 : ℚ) < ((b.x2 : Int) : ℚ) - ((b.x1 : Int) : ℚ) := by
        rw [sub_pos]
        exact_mod_cast hx
      linarith
    have hh : (0 : ℚ) ≤ ((b.y2 - b.y1 : Int) : ℚ) * r := by
      apply mul_nonneg _ hr
      push_cast
      have : (0 : ℚ) < ((b.y2 : Int) : ℚ) - ((b.y1 : Int) : ℚ) := by
        rw [sub_pos]
        exact_mod_cast hy
      linarith
    simp only [pyInt, if_pos hw, if_pos hh]
  · have hr' : r = 0 := le_antisymm (not_lt.mp hr0) hr
    subst hr'
    rw [if_neg hr0]
    have hfw : ⌊((b.x2 - b.x1 : Int) : ℚ) * 0⌋ = 0 := by simp
    have hfh : ⌊((b.y2 - b.y1 : Int) : ℚ) * 0⌋ = 0 := by simp
    rw [hfw, hfh]
    cases b with
    | mk x1 y1 x2 y2 =>
      simp only [Box.mk.injEq]
      refine ⟨?_, ?_, ?_, ?_⟩ <;> simp_all

/-- C8: a zero padding ratio yields the exact crop, and for a box valid within
the image bounds the clamped ROI area is monotone in the padding ratio:
`padding_ratio2 > padding_ratio1 ≥ 0` gives area at ratio2 ≥ area at ratio1.
Extraction is a total function, so over-expansion never raises. -/
theorem extract_roi_monotone :
    (∀ (img_h img_w : Nat) (b : Box), extract_roi img_h img_w b 0 = b) ∧
    (∀ (img_h img_w : Nat) (b : Box) (r1 r2 : ℚ),
      0 ≤ b.x1 → b.x1 < b.x2 → b.x2 ≤ (img_w : Int) →
      0 ≤ b.y1 → b.y1 < b.y2 → b.y2 ≤ (img_h : Int) →
      0 ≤ r1 → r1 < r2 →
      boxArea (extract_roi img_h img_w b r1) ≤ boxArea (extract_roi img_h img_w b r2)) := by
  constructor
  · intro img_h img_w b
    unfold extract_roi
    rw [if_neg (lt_irrefl 0)]
  · intro img_h img_w b r1 r2 hx1 hx hx2 hy1 hy hy2 hr1 hr12
    rw [extract_roi_eq_clamp img_h img_w b r1 hr1 hx1 hx hx2 hy1 hy hy2,
      extract_roi_eq_clamp img_h img_w b r2 (le_trans hr1 hr12.le) hx1 hx hx2 hy1 hy hy2]
    unfold clamp_box boxArea
    have hwq : (0 : ℚ) ≤ ((b.x2 - b.x1 : Int) : ℚ) := by
      push_cast
      have : ((b.x1 : Int) : ℚ) < ((b.x2 : Int) : ℚ) := by exact_mod_cast hx
      linarith
    have hhq : (0 : ℚ) ≤ ((b.y2 - b.y1 : Int) : ℚ) := by
      push_cast
      have : ((b.y1 : Int) : ℚ) < ((b.y2 : Int) : ℚ) := by exact_mod_cast hy
      linarith
    have hpwm : ⌊((b.x2 - b.x1 : Int) : ℚ) * r1⌋ ≤ ⌊((b.x2 - b.x1 : Int) : ℚ) * r2⌋ :=
      Int.floor_le_floor (mul_le_mul_of_nonneg_left hr12.le hwq)
    have hphm : ⌊((b.y2 - b.y1 : Int) : ℚ) * r1⌋ ≤ ⌊((b.y2 - b.y1 : Int) : ℚ) * r2⌋ :=
      Int.floor_le_floor (mul_le_mul_of_nonneg_left hr12.le hhq)
    have hpw0 : 0 ≤ ⌊((b.x2 - b.x1 : Int) : ℚ) * r1⌋ :=
      Int.le_floor.mpr (by simpa using mul_nonneg hwq hr1)
    have hph0 : 0 ≤ ⌊((b.y2 - b.y1 : Int) : ℚ) * r1⌋ :=
      Int.le_floor.mpr (by simpa using mul_nonneg hhq hr1)
    set pw1 := ⌊((b.x2 - b.x1 : Int) : ℚ) * r1⌋ with hdefpw1
    set pw2 := ⌊((b.x2 - b.x1 : Int) : ℚ) * r2⌋ with hdefpw2
    set ph1 := ⌊((b.y2 - b.y1 : Int) : ℚ) * r1⌋ with hdefph1
    set ph2 := ⌊((b.y2 - b.y1 : Int) : ℚ) * r2⌋ with hdefph2
    have hwle : min (img_w : Int) (b.x2 + pw1) - max 0 (b.x1 - pw1) ≤
        min (img_w : Int) (b.x2 + pw2) - max 0 (b.x1 - pw2) := by omega
    have hhle : min (img_h : Int) (b.y2 + ph1) - max 0 (b.y1 - ph1) ≤
        min (img_h : Int) (b.y2 + ph2) - max 0 (b.y1 - ph2) := by omega
    have hw0 : 0 ≤ min (img_h : Int) (b.y2 + ph1) - max 0 (b.y1 - ph1) := by omega
    have hw2 : 0 ≤ min (img_w : Int) (b.x2 + pw2) - max 0 (b.x1 - pw2) := by omega
    exact mul_le_mul hwle hhle hw0 hw2

/-- C8 (witness): the monotonicity conclusion at the box `(1,1,3,3)` in a
`10×10` image with padding ratios `0 < 1`. -/
theorem extract_roi_monotone_witness :
    ((0 : Int) ≤ 1 ∧ (1 : Int) < 3 ∧ (3 : Int) ≤ ((10 : Nat) : Int) ∧
      (0 : ℚ) ≤ 0 ∧ (0 : ℚ) < 1) ∧
    boxArea (extract_roi 10 10 ⟨1, 1, 3, 3⟩ 0) ≤ boxArea (extract_roi 10 10 ⟨1, 1, 3, 3⟩ 1) :=
  ⟨by decide, extract_roi_monotone.2 10 10 ⟨1, 1, 3, 3⟩ 0 1 (by decide) (by decide)
    (by decide) (by decide) (by decide) (by decide) (by decide) (by decide)⟩

/-- C1: for every input image (modelled by the outcomes of the collaborators
on it) `predict_image` returns exactly one of the two shapes — the success
Frame Result or the error variant with `detections_count = 0` and
`results = []` — and, being a total function of those outcomes, it propagates
no exception to the caller. -/
theorem predict_image_two_shapes (env : PipelineEnv) (elapsed : ℚ) :
    (∃ shape n results,
      predict_image env elapsed
        = .success shape n results elapsed pipeline_version_string) ∨
    (∃ e, predict_image env elapsed = .failure e 0 [] elapsed) := by
  unfold predict_image
  cases hcore : predict_image_core env with
  | ok v =>
    obtain ⟨shape, n, results⟩ := v
    exact Or.inl ⟨shape, n, results, rfl⟩
  | error e =>
    exact Or.inr ⟨e, rfl⟩

theorem run_predictions_aux (l : List (Nat × ℚ)) :
    ∀ s : AppStats,
      l.foldl (fun s dt => update_stats s dt.1 dt.2) s =
        ⟨s.total_predictions + l.length, s.total_detections + (l.map Prod.fst).sum,
         s.total_processing_time + (l.map Prod.snd).sum⟩ := by
  induction l with
  | nil =>
    intro s
    cases s
    simp
  | cons dt rest ih =>
    intro s
    rw [List.foldl_cons, ih]
    simp only [update_stats, List.length_cons, List.map_cons, List.sum_cons]
    rw [AppStats.mk.injEq]
    refine ⟨by omega, by omega, by ring⟩

/-- C3: after `N` successful predictions with detection counts `d_i` and times
`t_i`, the statistics hold `total_predictions = N`,
`total_detections = Σ d_i`, `total_processing_time = Σ t_i`, and the metrics
query reports `average_processing_time = (Σ t_i)/N` when `N > 0` and `0.0`
when `N = 0`. -/
theorem stats_accumulation (l : List (Nat × ℚ)) :
    (run_predictions l).total_predictions = l.length ∧
    (run_predictions l).total_detections = (l.map Prod.fst).sum ∧
    (run_predictions l).total_processing_time = (l.map Prod.snd).sum ∧
    (∀ loaded, (get_metrics loaded (run_predictions l)).average_processing_time
      = if 0 < l.length then (l.map Prod.snd).sum / (l.length : ℚ) else 0) := by
  have h := run_predictions_aux l init_stats
  unfold run_predictions
  rw [h]
  refine ⟨by simp [init_stats], by simp [init_stats], by simp [init_stats], fun loaded => ?_⟩
  simp [get_metrics, init_stats]

/-- C4 (counterexample): on a pipeline-reported error the endpoint raises
`HTTPException(500)` before `update_stats` runs, so `total_predictions` is
left at its old value — the claim that the request is still counted as
attempted (incremented) is false. -/
theorem predict_error_not_counted_cex :
    (endpoint_predict true (.ok ()) (FrameResult.failure (codes "Test error") 0 [] 0)
        init_stats).2.total_predictions
      ≠ init_stats.total_predictions + 1 := by
  decide

/-- C4 (amended): on a pipeline-reported error the endpoint returns a
client-facing 500 error response and leaves the statistics entirely
unchanged — `total_detections` and `total_processing_time`, but also
`total_predictions`: the failed request is logged, not counted. -/
theorem predict_error_leaves_stats (s : AppStats) (e : List Nat)
    (dc : Nat) (res : List PredRecord) (t : ℚ) :
    (∃ err : HttpErr,
      (endpoint_predict true (.ok ()) (.failure e dc res t) s).1 = .error err ∧
      err.status_code = 500) ∧
    (endpoint_predict true (.ok ()) (.failure e dc res t) s).2 = s :=
  ⟨⟨⟨500, codes "Erreur de prediction: " ++ e⟩, rfl, rfl⟩, rfl⟩

/-- C5 (counterexample): `load_models` catches a YOLO-load failure and
returns `False`, and `__init__` discards that value, so after a successful
config load with a failed model load the pipeline object exists with NO
detection model loaded — and in that state the health query answers
`"healthy"` and the metrics query answers `"loaded"` (both key off the
pipeline object, not the model), refuting the claim as stated. -/
theorem degraded_health_cex :
    (initialize_pipeline true false).yolo_model_loaded = false ∧
    (health_check (initialize_pipeline true false).pipeline_exists init_stats 0).status
        = "healthy" ∧
    (get_metrics (initialize_pipeline true false).pipeline_exists init_stats).pipeline_status
        = "loaded" := by
  decide

/-- C5 (amended): whenever the pipeline OBJECT failed to initialize (the
global `pipeline` of `api/main.py` is `None`, as after a configuration-load
failure in the constructor), the health query returns `"degraded"` and the
metrics query returns a `pipeline_status` different from `"loaded"`; both
queries are total functions of the state, so neither raises.  A missing
detection model on a live pipeline object does not trigger degraded health
(see the counterexample). -/
theorem degraded_health (s : AppStats) (uptime : ℚ) (yolo_load_ok : Bool) :
    (health_check (initialize_pipeline false yolo_load_ok).pipeline_exists s uptime).status
        = "degraded" ∧
    (health_check (initialize_pipeline false yolo_load_ok).pipeline_exists s
        uptime).pipeline_loaded = false ∧
    (get_metrics (initialize_pipeline false yolo_load_ok).pipeline_exists s).pipeline_status
      ≠ "loaded" := by
  refine ⟨rfl, rfl, ?_⟩
  show ("not_loaded" : String) ≠ "loaded"
  decide

theorem process_batch_item_fst (item : Except (List Nat) FrameResult) (s : AppStats) :
    (process_batch_item item s).1 = batch_entry item := by
  cases item with
  | error m => rfl
  | ok fr => cases fr <;> rfl

theorem batch_go_fst :
    ∀ (items : List (Except (List Nat) FrameResult)) (s : AppStats),
      (batch_go items s).1 = items.map batch_entry := by
  intro items
  induction items with
  | nil => intro s; rfl
  | cons it its ih =>
    intro s
    show (process_batch_item it s).1 :: (batch_go its (process_batch_item it s).2).1
        = batch_entry it :: its.map batch_entry
    rw [process_batch_item_fst, ih]

/-- C10: a batch of more than 10 items is rejected wholesale with a 400-class
error and no per-image processing; otherwise every image is processed
independently in input order — the result list is the positionwise image of
the items, so one failing item contributes exactly one error entry at its own
position and never aborts the processing of its siblings. -/
theorem predict_batch_spec (items : List (Except (List Nat) FrameResult)) (s : AppStats) :
    (10 < items.length →
      predict_batch true items s = .error ⟨400, codes "Maximum 10 images par batch"⟩) ∧
    (items.length ≤ 10 →
      ∃ st, predict_batch true items s = .ok (items.map batch_entry, st)) := by
  constructor
  · intro hgt
    unfold predict_batch
    rw [if_neg (by simp), if_pos hgt]
  · intro hle
    refine ⟨(batch_go items s).2, ?_⟩
    unfold predict_batch
    rw [if_neg (by simp), if_neg (by omega)]
    rw [← batch_go_fst items s]

/-- C10 (witness): an 11-item batch is rejected with the 400 error, and a
2-item batch whose first item is a corrupted payload yields one error entry
followed by its sibling's success entry, in order. -/
theorem predict_batch_spec_witness :
    (10 < (List.replicate 11 (Except.error [] : Except (List Nat) FrameResult)).length ∧
      predict_batch true (List.replicate 11 (Except.error [])) init_stats
        = .error ⟨400, codes "Maximum 10 images par batch"⟩) ∧
    (([Except.error (codes "bad"),
        Except.ok (FrameResult.success (2, 2, 3) 0 [] 0 pipeline_version_string)] :
          List (Except (List Nat) FrameResult)).length ≤ 10 ∧
      ∃ st, predict_batch true
          [Except.error (codes "bad"),
           Except.ok (FrameResult.success (2, 2, 3) 0 [] 0 pipeline_version_string)]
          init_stats
        = .ok ([Except.error (codes "bad"),
                Except.ok (FrameResult.success (2, 2, 3) 0 [] 0
                  pipeline_version_string)].map batch_entry, st)) :=
  ⟨⟨by decide, (predict_batch_spec _ _).1 (by decide)⟩,
   ⟨by decide, (predict_batch_spec _ _).2 (by decide)⟩⟩

end RoadSign

